import Mathlib

/-!
Shallow embedding of `src/olsr_telnet.c`, the client-connection engine of
olsrd's telnet server: the per-session state machine, the line framer,
the buffered non-blocking I/O paths and the graceful-shutdown sequencer.

Buffers (`struct autobuf`, defined in the repository's `common/autobuf`
which is not part of this source file) are modelled from the spec as byte
lists: append (`abuf_memcpy` / `abuf_vappendf`) is list append,
`abuf_pull n` drops the first `n` bytes, `len` is the list length, and a
command string handed to the dispatcher is the byte prefix up to the
first NUL.  External side effects (socket, reactor and timer calls) are
recorded in order as an `Effect` trace.
-/

/-- The four states of `telnet_client.state`. -/
inductive ClientState
  | active
  | pending
  | linger
  | destroy
  deriving DecidableEq

/-- Observable calls into the sockets, the reactor and the timer service,
recorded in call order. -/
inductive Effect
  | closeFd (fd : Int)
  | removeSocket (fd : Int)
  | enableWrite (fd : Int)
  | disableWrite (fd : Int)
  | shutdownWR (fd : Int)
  | startTimer (t : Nat)
  | stopTimer (t : Nat)
  | dispatch (cmd : List Nat)
  | freeBuffers (fd : Int)
  deriving DecidableEq

/-- `struct telnet_client`: socket descriptor (`-1` is the closed
sentinel), state, input and output buffers, optional linger timer
handle.  The `server` back-pointer is modelled by passing the server
explicitly where needed. -/
structure TelnetClient where
  fd : Int
  state : ClientState
  inBuf : List Nat
  out : List Nat
  linger_timer : Option Nat
  deriving DecidableEq

/-- `struct telnet_server`: listening socket and the client registry
(`s->clients`, a singly linked list). -/
structure TelnetServer where
  fd : Int
  clients : List TelnetClient
  default_client_buf_size : Nat
  deriving DecidableEq

/-- `#define BUF_SIZE 1024`. -/
def BUF_SIZE : Nat := 1024

/-- Core of `olsr_telnet_client_quit`: `now ? destroy : pending`. -/
def quit_state (now : Bool) : ClientState :=
  if now then ClientState.destroy else ClientState.pending

/-- `olsr_telnet_client_quit`: a null client is a no-op, otherwise the
state is set unconditionally from the boolean. -/
def olsr_telnet_client_quit : Option TelnetClient → Bool → Option TelnetClient
  | none, _ => none
  | some c, now => some { c with state := quit_state now }

/-- `olsr_telnet_client_printf`, taking the already formatted bytes
(`abuf_vappendf` appends them to `c->out`).  A null client is a no-op.
The function performs no reactor call, hence the always empty effect
trace. -/
def olsr_telnet_client_printf : Option TelnetClient → List Nat → Option TelnetClient × List Effect
  | none, _ => (none, [])
  | some c, s => (some { c with out := c.out ++ s }, [])

/-- `olsr_telnet_prepare` (the sockaddr completion is out of scope):
resets the server fields; a null server is a no-op. -/
def olsr_telnet_prepare : Option TelnetServer → Option TelnetServer
  | none => none
  | some s => some { s with fd := -1, clients := [], default_client_buf_size := BUF_SIZE }

/-- `telnet_client_free`: unregister and close the socket (unless it is
the `-1` sentinel), release both buffers, stop a running linger timer. -/
def telnet_client_free (c : TelnetClient) : List Effect :=
  (if c.fd ≠ -1 then [Effect.removeSocket c.fd, Effect.closeFd c.fd] else [])
    ++ [Effect.freeBuffers c.fd]
    ++ (match c.linger_timer with
        | some t => [Effect.stopTimer t]
        | none => [])

/-- The list surgery of `telnet_client_remove`: drop the first registry
entry with the given socket (sessions are identified by their socket;
the registry holds no duplicate sockets). -/
def removeByFd (fd : Int) : List TelnetClient → List TelnetClient
  | [] => []
  | x :: xs => if x.fd = fd then xs else x :: removeByFd fd xs

/-- `telnet_client_remove`: when the registry is empty the source returns
before freeing; otherwise the session is unlinked and freed. -/
def telnet_client_remove (s : TelnetServer) (c : TelnetClient) : TelnetServer × List Effect :=
  if s.clients.isEmpty then (s, [])
  else ({ s with clients := removeByFd c.fd s.clients }, telnet_client_free c)

/-- `telnet_client_cleanup`: free every registered session.  The source
never reassigns `s->clients`, so the registry field keeps its (now
dangling) entries; the model mirrors that by leaving the server
unchanged. -/
def telnet_client_cleanup (s : TelnetServer) : TelnetServer × List Effect :=
  (s, (s.clients.map telnet_client_free).flatten)

/-- `olsr_telnet_exit`: cleanup of all clients, then unregister and close
the server socket when it is open; a null server is a no-op. -/
def olsr_telnet_exit : Option TelnetServer → Option TelnetServer × List Effect
  | none => (none, [])
  | some s =>
    let p := telnet_client_cleanup s
    if p.1.fd ≠ -1 then
      (some { p.1 with fd := -1 }, p.2 ++ [Effect.removeSocket p.1.fd, Effect.closeFd p.1.fd])
    else (some p.1, p.2)

/-- A command dispatcher: from the session's state, output buffer, socket
and the command bytes to the new state, new output buffer and reactor
effects.  Per the interface boundary the dispatcher acts on the session
only through the exposed append/quit operations, so it cannot touch the
input buffer. -/
def Dispatcher : Type :=
  ClientState → List Nat → Int → List Nat → ClientState × List Nat × List Effect

/-- `telnet_client_handle_cmd`, the built-in echo dispatcher: append the
command plus a newline to `out` (via `olsr_telnet_client_printf`),
request a graceful quit (`olsr_telnet_client_quit(c, 0)`), then enable
write interest when the state is not `destroy` and `out` is
non-empty. -/
def telnet_client_handle_cmd : Dispatcher := fun _st out fd cmd =>
  let out1 := out ++ (cmd ++ [10])
  let st1 := quit_state false
  if st1 ≠ ClientState.destroy ∧ out1.length ≠ 0 then
    (st1, out1, [Effect.enableWrite fd])
  else (st1, out1, [])

/-- Loop of `telnet_client_fetch_lines`.  The fuel bounds the number of
iterations; each iteration advances `i` by at least one while the buffer
never grows, so `c.in.len - i` iterations always suffice (see
`telnet_client_fetch_lines`).  The source's `offset = 0` after the pull
is a dead store (the loop variable is `i`), mirrored faithfully here by
the recursive call continuing at `i + 1` over the pulled buffer. -/
def fetchLinesAux (handle : Dispatcher) : Nat → TelnetClient → Nat → TelnetClient × List Effect
  | 0, c, _ => (c, [])
  | fuel + 1, c, i =>
    if h : i < c.inBuf.length then
      if c.inBuf[i] = 10 then
        let buf1 := c.inBuf.set i 0
        let buf2 := if 0 < i ∧ buf1.get? (i - 1) = some 13 then buf1.set (i - 1) 0 else buf1
        let cmd := buf2.takeWhile (fun b => b ≠ 0)
        let r := handle c.state c.out c.fd cmd
        let c2 : TelnetClient := { c with state := r.1, out := r.2.1, inBuf := buf2 }
        let effs := Effect.dispatch cmd :: r.2.2
        if c2.state ≠ ClientState.active then (c2, effs)
        else if c2.inBuf.length ≤ i then
          ({ c2 with inBuf := c2.inBuf.drop c2.inBuf.length }, effs)
        else
          let rest := fetchLinesAux handle fuel { c2 with inBuf := c2.inBuf.drop (i + 1) } (i + 1)
          (rest.1, effs ++ rest.2)
      else fetchLinesAux handle fuel c (i + 1)
    else (c, [])

/-- `telnet_client_fetch_lines`: scan the input buffer from `offset` for
line feeds, NUL-terminate each found line (also stripping a carriage
return right before the line feed), dispatch it, and pull the consumed
prefix, stopping early when the dispatch left the `active` state. -/
def telnet_client_fetch_lines (handle : Dispatcher) (c : TelnetClient) (offset : Nat) :
    TelnetClient × List Effect :=
  fetchLinesAux handle (c.inBuf.length - offset) c offset

/-- Outcome of the non-blocking `recv`: `recv data` is a result of
`data.length` bytes (zero meaning orderly peer close); `err` is a
negative result, transient meaning `EAGAIN`/`EWOULDBLOCK`/`EINTR`. -/
inductive RecvResult
  | recv (data : List Nat)
  | err (transient : Bool)
  deriving DecidableEq

/-- Outcome of the non-blocking `send`: `sent n` is a result `n ≥ 0`;
`err` is a negative result, transient as for `RecvResult`. -/
inductive SendResult
  | sent (n : Nat)
  | err (transient : Bool)
  deriving DecidableEq

/-- `telnet_client_read`: a positive byte count is discarded unless the
state is `active`, in which case the bytes are appended and the line
framer runs from the old buffer end; zero bytes means orderly peer close
(`destroy`); a transient error does nothing, any other error sets
`destroy`. -/
def telnet_client_read (handle : Dispatcher) (r : RecvResult) (c : TelnetClient) :
    TelnetClient × List Effect :=
  match r with
  | RecvResult.recv data =>
    if 0 < data.length then
      if c.state ≠ ClientState.active then (c, [])
      else
        telnet_client_fetch_lines handle { c with inBuf := c.inBuf ++ data } c.inBuf.length
    else ({ c with state := ClientState.destroy }, [])
  | RecvResult.err transient =>
    if transient then (c, [])
    else ({ c with state := ClientState.destroy }, [])

/-- `telnet_client_write`: a positive result pulls that many bytes off
the front of `out`; when `out` becomes empty, write interest is
withdrawn and a `pending` session moves to `linger`.  A zero result does
nothing; a transient error does nothing; any other error sets
`destroy`. -/
def telnet_client_write (r : SendResult) (c : TelnetClient) : TelnetClient × List Effect :=
  match r with
  | SendResult.sent n =>
    if 0 < n then
      let c1 := { c with out := c.out.drop n }
      if c1.out.length = 0 then
        if c.state = ClientState.pending then
          ({ c1 with state := ClientState.linger }, [Effect.disableWrite c.fd])
        else (c1, [Effect.disableWrite c.fd])
      else (c1, [])
    else (c, [])
  | SendResult.err transient =>
    if transient then (c, [])
    else ({ c with state := ClientState.destroy }, [])

/-- The reactor flag bits `SP_PR_WRITE` / `SP_PR_READ` given to
`telnet_client_action`. -/
structure EventFlags where
  wr : Bool
  rd : Bool
  deriving DecidableEq

/-- `telnet_client_action`: service write readiness then read readiness,
then the post-event check: enter `linger` (half-close plus one one-shot
timer, whose fresh handle is `newTimer`) exactly when the state is
`linger` with no timer recorded, or remove the session when the state is
`destroy`.  Returns the server, the session (`none` once removed and
freed) and the effect trace. -/
def telnet_client_action (handle : Dispatcher) (flags : EventFlags)
    (sendR : SendResult) (recvR : RecvResult) (newTimer : Nat)
    (s : TelnetServer) (c : TelnetClient) :
    TelnetServer × Option TelnetClient × List Effect :=
  let p1 := if flags.wr then telnet_client_write sendR c else (c, [])
  let p2 := if flags.rd then telnet_client_read handle recvR p1.1 else (p1.1, [])
  let c2 := p2.1
  if c2.state = ClientState.linger ∧ c2.linger_timer = none then
    (s, some { c2 with linger_timer := some newTimer },
      p1.2 ++ p2.2 ++ [Effect.shutdownWR c2.fd, Effect.startTimer newTimer])
  else if c2.state = ClientState.destroy then
    let pr := telnet_client_remove s c2
    (pr.1, none, p1.2 ++ p2.2 ++ pr.2)
  else (s, some c2, p1.2 ++ p2.2)

/-- `telnet_client_linger_timeout`: clear the timer handle, then remove
the session. -/
def telnet_client_linger_timeout (s : TelnetServer) (c : TelnetClient) :
    TelnetServer × List Effect :=
  telnet_client_remove s { c with linger_timer := none }

/-- A dispatcher that leaves the session untouched, used to observe the
line framer alone (the spec's dispatcher is pluggable and may keep the
session `active`). -/
def keepAlive : Dispatcher := fun st out _ _ => (st, out, [])

/-- An `active` session with empty buffers, as created by
`telnet_client_add`. -/
def framerClient : TelnetClient :=
  { fd := 4, state := ClientState.active, inBuf := [], out := [], linger_timer := none }

/-- A session in `linger` with its linger timer (handle `7`) running. -/
def lingerTimer7 : TelnetClient :=
  { fd := 5, state := ClientState.linger, inBuf := [], out := [], linger_timer := some 7 }

/-- A server with exactly one live session registered. -/
def oneClientServer : TelnetServer :=
  { fd := 3, clients := [lingerTimer7], default_client_buf_size := 1024 }

/-- A server with an empty registry. -/
def emptyServer : TelnetServer :=
  { fd := -1, clients := [], default_client_buf_size := 1024 }

/-- A session already in the terminal `destroy` state. -/
def destroyedClient : TelnetClient :=
  { fd := 8, state := ClientState.destroy, inBuf := [], out := [], linger_timer := none }

/-- An `active` session with an empty output buffer. -/
def emptyOutClient : TelnetClient :=
  { fd := 6, state := ClientState.active, inBuf := [], out := [], linger_timer := none }

/-- An `active` session with one queued output byte. -/
def busyOutClient : TelnetClient :=
  { fd := 2, state := ClientState.active, inBuf := [], out := [120], linger_timer := none }

/-- A `pending` session with one queued output byte. -/
def pendingClient : TelnetClient :=
  { fd := 1, state := ClientState.pending, inBuf := [], out := [99], linger_timer := none }

/-- A session in `linger` with no timer recorded yet. -/
def lingerNoTimer : TelnetClient :=
  { fd := 11, state := ClientState.linger, inBuf := [], out := [], linger_timer := none }

/-- C1: the framer does not dispatch every complete line of one read.  A
single read delivering the two lines `a\n` and `b\n` to an `active`
session (dispatcher keeping it `active`) produces exactly one dispatch,
of `a` only, and leaves `b\n` at the buffer start where the scan never
returns: the loop index keeps advancing past the consumed prefix. -/
theorem claim_C1 :
    (telnet_client_read keepAlive (RecvResult.recv [97, 10, 98, 10]) framerClient).2
      = [Effect.dispatch [97]]
    ∧ (telnet_client_read keepAlive (RecvResult.recv [97, 10, 98, 10]) framerClient).1.inBuf
      = [98, 10]
    ∧ (telnet_client_read keepAlive (RecvResult.recv [97, 10, 98, 10]) framerClient).1.state
      = ClientState.active := by decide

/-- C2: tearing down a server with one live session closes the client
socket, frees its buffers, stops its linger timer and closes the server
socket, but the registry still holds the (freed) session: the source
never reassigns `s->clients`. -/
theorem claim_C2 :
    olsr_telnet_exit (some oneClientServer)
      = (some { oneClientServer with fd := -1 },
         [Effect.removeSocket 5, Effect.closeFd 5, Effect.freeBuffers 5, Effect.stopTimer 7,
          Effect.removeSocket 3, Effect.closeFd 3])
    ∧ { oneClientServer with fd := -1 }.clients = [lingerTimer7] := by decide

/-- C3 counterexample: `olsr_telnet_client_quit` with `now = false` moves
a session whose state is `destroy` to `pending`, so `destroy` is left. -/
theorem claim_C3_cex :
    destroyedClient.state = ClientState.destroy
    ∧ olsr_telnet_client_quit (some destroyedClient) false
      = some { destroyedClient with state := ClientState.pending } := by decide

/-- C4 counterexample: `olsr_telnet_client_printf` on an empty output
buffer queues the byte, making the buffer non-empty, yet performs no
write-interest enabling. -/
theorem claim_C4_cex :
    emptyOutClient.out = []
    ∧ (olsr_telnet_client_printf (some emptyOutClient) [120]).1
      = some { emptyOutClient with out := [120] }
    ∧ Effect.enableWrite emptyOutClient.fd ∉ (olsr_telnet_client_printf (some emptyOutClient) [120]).2 := by
  decide

/-- C9 counterexample: a `send` result of zero is non-positive and not a
transient error, yet the session is left unchanged instead of moving to
`destroy`. -/
theorem claim_C9_cex :
    telnet_client_write (SendResult.sent 0) busyOutClient = (busyOutClient, [])
    ∧ (telnet_client_write (SendResult.sent 0) busyOutClient).1.state ≠ ClientState.destroy := by
  decide

/-- `telnet_client_write` only ever keeps the state, enters `linger`
(from `pending` on full drain) or enters `destroy`; it never touches the
timer handle or the socket, and its only reactor effect is the
write-interest withdrawal. -/
theorem write_parts (r : SendResult) (c : TelnetClient) :
    ((telnet_client_write r c).1.state = c.state
      ∨ (telnet_client_write r c).1.state = ClientState.linger
      ∨ (telnet_client_write r c).1.state = ClientState.destroy)
    ∧ (telnet_client_write r c).1.linger_timer = c.linger_timer
    ∧ (telnet_client_write r c).1.fd = c.fd
    ∧ (telnet_client_write r c).1.inBuf = c.inBuf
    ∧ ((telnet_client_write r c).2 = []
      ∨ (telnet_client_write r c).2 = [Effect.disableWrite c.fd]) := by
  rcases r with n | t <;> simp only [telnet_client_write] <;> split_ifs <;> simp

/-- A session already in `destroy` stays in `destroy` across
`telnet_client_write`. -/
theorem write_state_destroy (r : SendResult) (c : TelnetClient)
    (h : c.state = ClientState.destroy) :
    (telnet_client_write r c).1.state = ClientState.destroy := by
  rcases r with n | t <;> simp only [telnet_client_write] <;> split_ifs <;> simp_all

/-- `telnet_client_read` on a session that is not `active` either leaves
it entirely unchanged or only sets the state to `destroy`; in both cases
no bytes are appended, nothing is dispatched and no effect occurs. -/
theorem read_not_active (handle : Dispatcher) (r : RecvResult) (c : TelnetClient)
    (h : c.state ≠ ClientState.active) :
    telnet_client_read handle r c = (c, [])
    ∨ telnet_client_read handle r c = ({ c with state := ClientState.destroy }, []) := by
  rcases r with data | t
  · by_cases hl : 0 < data.length
    · left; simp [telnet_client_read, hl, h]
    · right; simp [telnet_client_read, hl]
  · cases t
    · right; simp [telnet_client_read]
    · left; simp [telnet_client_read]

/-- A zero-byte `recv` (orderly peer close) always sets `destroy` and
does nothing else. -/
theorem read_recv_nil (handle : Dispatcher) (c : TelnetClient) :
    telnet_client_read handle (RecvResult.recv []) c
      = ({ c with state := ClientState.destroy }, []) := by
  simp [telnet_client_read]

/-- Every effect of `telnet_client_free` is a socket unregistration, a
socket close, a buffer release or a timer stop. -/
theorem free_mem_shape (c : TelnetClient) (e : Effect) (he : e ∈ telnet_client_free c) :
    e = Effect.removeSocket c.fd ∨ e = Effect.closeFd c.fd ∨ e = Effect.freeBuffers c.fd
    ∨ ∃ t2, e = Effect.stopTimer t2 := by
  unfold telnet_client_free at he
  rcases htm : c.linger_timer with _ | t2 <;> rw [htm] at he <;> split_ifs at he <;>
    simp [List.mem_append] at he <;> tauto

/-- C4 amended: `olsr_telnet_client_printf` only queues the formatted
bytes onto `out` and performs no reactor call; write-interest enabling
is done by the command handler after dispatch, exactly when the state is
not `destroy` and the output buffer is non-empty. -/
theorem claim_C4 (c : TelnetClient) (s : List Nat) (st : ClientState) (out : List Nat)
    (fd : Int) (cmd : List Nat) :
    olsr_telnet_client_printf (some c) s = (some { c with out := c.out ++ s }, [])
    ∧ (Effect.enableWrite fd ∈ (telnet_client_handle_cmd st out fd cmd).2.2
        ↔ ((telnet_client_handle_cmd st out fd cmd).1 ≠ ClientState.destroy
            ∧ (telnet_client_handle_cmd st out fd cmd).2.1 ≠ [])) := by
  refine ⟨rfl, ?_⟩
  simp [telnet_client_handle_cmd, quit_state]

/-- C9 amended: on write readiness a transient error (`EAGAIN` /
`EWOULDBLOCK` / `EINTR`) leaves the session untouched for a retry, any
other negative result moves the state to `destroy` with the output
buffer intact, and a zero result is a no-op as well (the source handles
only strictly negative results as errors). -/
theorem claim_C9 (c : TelnetClient) :
    telnet_client_write (SendResult.err true) c = (c, [])
    ∧ (telnet_client_write (SendResult.err false) c).1.state = ClientState.destroy
    ∧ (telnet_client_write (SendResult.err false) c).1.out = c.out
    ∧ telnet_client_write (SendResult.sent 0) c = (c, []) := by
  refine ⟨rfl, rfl, rfl, rfl⟩

/-- C10: each exposed API operation, given a null server or client
handle, returns without any effect or state change. -/
theorem claim_C10 (b : Bool) (s : List Nat) :
    olsr_telnet_prepare none = none
    ∧ olsr_telnet_exit none = (none, [])
    ∧ olsr_telnet_client_quit none b = none
    ∧ olsr_telnet_client_printf none s = (none, []) := by
  refine ⟨rfl, rfl, rfl, rfl⟩

/-- C5: a positive `send` result of `n ≤ out.len` bytes consumes exactly
the first `n` bytes of the output buffer (no loss, no duplication); when
the buffer thereby drains, write interest is withdrawn and a `pending`
session moves to `linger`. -/
theorem claim_C5 (c : TelnetClient) (n : Nat) (h1 : 0 < n) (h2 : n ≤ c.out.length) :
    (telnet_client_write (SendResult.sent n) c).1.out = c.out.drop n
    ∧ c.out = c.out.take n ++ (telnet_client_write (SendResult.sent n) c).1.out
    ∧ (c.out.take n).length = n
    ∧ (c.out.drop n = [] →
        (telnet_client_write (SendResult.sent n) c).2 = [Effect.disableWrite c.fd]
        ∧ (c.state = ClientState.pending →
            (telnet_client_write (SendResult.sent n) c).1.state = ClientState.linger)) := by
  simp only [telnet_client_write, if_pos h1]
  by_cases hd : (c.out.drop n).length = 0 <;>
    by_cases hp : c.state = ClientState.pending <;>
      simp_all [List.take_append_drop, List.length_take, Nat.min_eq_left h2]

/-- C5 witness: one byte sent from a one-byte buffer of a `pending`
session drains it, withdraws write interest and enters `linger`. -/
theorem claim_C5_witness :
    (telnet_client_write (SendResult.sent 1) pendingClient).1.out = pendingClient.out.drop 1
    ∧ pendingClient.out
      = pendingClient.out.take 1 ++ (telnet_client_write (SendResult.sent 1) pendingClient).1.out
    ∧ (pendingClient.out.take 1).length = 1
    ∧ (pendingClient.out.drop 1 = [] →
        (telnet_client_write (SendResult.sent 1) pendingClient).2
          = [Effect.disableWrite pendingClient.fd]
        ∧ (pendingClient.state = ClientState.pending →
            (telnet_client_write (SendResult.sent 1) pendingClient).1.state
              = ClientState.linger)) :=
  claim_C5 pendingClient 1 (by decide) (by decide)

/-- C8: a positive `recv` on a session that is not `active` is fully
discarded (buffers, state, effects all unchanged, no dispatch); on an
`active` session the bytes are appended and the line framer runs from
the old buffer end. -/
theorem claim_C8 (handle : Dispatcher) (data : List Nat) (c cAct : TelnetClient)
    (h1 : data ≠ []) (h2 : c.state ≠ ClientState.active)
    (h3 : cAct.state = ClientState.active) :
    telnet_client_read handle (RecvResult.recv data) c = (c, [])
    ∧ telnet_client_read handle (RecvResult.recv data) cAct
      = telnet_client_fetch_lines handle { cAct with inBuf := cAct.inBuf ++ data }
          cAct.inBuf.length := by
  constructor
  · simp [telnet_client_read, List.length_pos.mpr h1, h2]
  · simp [telnet_client_read, List.length_pos.mpr h1, h3]

/-- C8 witness: one byte delivered to a lingering session is discarded;
the same byte delivered to an `active` session goes through the line
framer. -/
theorem claim_C8_witness :
    telnet_client_read keepAlive (RecvResult.recv [97]) lingerTimer7 = (lingerTimer7, [])
    ∧ telnet_client_read keepAlive (RecvResult.recv [97]) framerClient
      = telnet_client_fetch_lines keepAlive { framerClient with inBuf := framerClient.inBuf ++ [97] }
          framerClient.inBuf.length :=
  claim_C8 keepAlive [97] lingerTimer7 framerClient (by decide) (by decide) (by decide)

/-- Dropping one registry entry never adds or alters sessions: every
survivor of `removeByFd` is one of the original sessions, unchanged. -/
theorem removeByFd_subset (fd : Int) (l : List TelnetClient) (x : TelnetClient)
    (hx : x ∈ removeByFd fd l) : x ∈ l := by
  induction l with
  | nil => simp [removeByFd] at hx
  | cons y ys ih =>
    simp only [removeByFd] at hx
    split_ifs at hx
    · exact List.mem_cons_of_mem y hx
    · rcases List.mem_cons.mp hx with h | h
      · exact List.mem_cons.mpr (Or.inl h)
      · exact List.mem_cons_of_mem y (ih h)

/-- C3 amended: the readiness callback, from a session in `destroy` (for
any flag combination and any socket outcomes), always removes and frees
the session — `destroy` is terminal for the event machinery; timer
expiry (`telnet_client_linger_timeout`) only removes and frees its
session, and every session surviving it is an unchanged member of the
original registry, so expiry moves no session out of `destroy`; and
`olsr_telnet_client_quit` with `now = true` keeps `destroy`; but
`olsr_telnet_client_quit` with `now = false` sets `pending`
unconditionally, leaving `destroy`. -/
theorem claim_C3 (handle : Dispatcher) (flags : EventFlags) (sR : SendResult) (rR : RecvResult)
    (t : Nat) (s : TelnetServer) (c : TelnetClient) (h : c.state = ClientState.destroy) :
    (telnet_client_action handle flags sR rR t s c).2.1 = none
    ∧ (∀ x, x ∈ (telnet_client_linger_timeout s c).1.clients → x ∈ s.clients)
    ∧ olsr_telnet_client_quit (some c) true = some c
    ∧ olsr_telnet_client_quit (some c) false = some { c with state := ClientState.pending } := by
  refine ⟨?_, ?_, ?_, rfl⟩
  · obtain ⟨wr, rd⟩ := flags
    cases wr <;> cases rd
    · simp [telnet_client_action, h]
    · have hna : c.state ≠ ClientState.active := by
        rw [h]; exact fun hc => ClientState.noConfusion hc
      rcases read_not_active handle rR c hna with he | he <;>
        simp [telnet_client_action, he, h]
    · simp [telnet_client_action, write_state_destroy sR c h]
    · have hna : (telnet_client_write sR c).1.state ≠ ClientState.active := by
        rw [write_state_destroy sR c h]; exact fun hc => ClientState.noConfusion hc
      rcases read_not_active handle rR (telnet_client_write sR c).1 hna with he | he <;>
        simp [telnet_client_action, he, write_state_destroy sR c h]
  · intro x hx
    unfold telnet_client_linger_timeout telnet_client_remove at hx
    split_ifs at hx
    · simpa using hx
    · exact removeByFd_subset _ _ _ (by simpa using hx)
  · calc olsr_telnet_client_quit (some c) true
        = some { c with state := ClientState.destroy } := rfl
    _ = some { c with state := c.state } := by rw [h]
    _ = some c := rfl

/-- C3 witness: a destroyed session under a full read/write callback is
removed, the linger timeout on a one-session server keeps only original
sessions, and the two quit calls behave as stated. -/
theorem claim_C3_witness :
    (telnet_client_action keepAlive ⟨true, true⟩ (SendResult.sent 1) (RecvResult.recv []) 0
        oneClientServer destroyedClient).2.1 = none
    ∧ (∀ x, x ∈ (telnet_client_linger_timeout oneClientServer destroyedClient).1.clients →
        x ∈ oneClientServer.clients)
    ∧ olsr_telnet_client_quit (some destroyedClient) true = some destroyedClient
    ∧ olsr_telnet_client_quit (some destroyedClient) false
      = some { destroyedClient with state := ClientState.pending } :=
  claim_C3 keepAlive ⟨true, true⟩ (SendResult.sent 1) (RecvResult.recv []) 0
    oneClientServer destroyedClient rfl

/-- Every effect of `telnet_client_remove` is a socket unregistration, a
socket close, a buffer release or a timer stop. -/
theorem remove_mem_shape (s : TelnetServer) (c : TelnetClient) (e : Effect)
    (he : e ∈ (telnet_client_remove s c).2) :
    e = Effect.removeSocket c.fd ∨ e = Effect.closeFd c.fd ∨ e = Effect.freeBuffers c.fd
    ∨ ∃ t2, e = Effect.stopTimer t2 := by
  unfold telnet_client_remove at he
  split_ifs at he
  · simp at he
  · exact free_mem_shape c e he

/-- Once a session is in `linger` with its timer recorded, no further
readiness callback can emit a half-close or a timer start: the only
effects remaining are write-interest withdrawal and, on removal, the
release effects. -/
theorem action_mem_shape (handle : Dispatcher) (flags : EventFlags) (sR : SendResult)
    (rR : RecvResult) (t : Nat) (s : TelnetServer) (c : TelnetClient) (u : Nat)
    (hst : c.state = ClientState.linger) (htm : c.linger_timer = some u) (e : Effect)
    (he : e ∈ (telnet_client_action handle flags sR rR t s c).2.2) :
    e = Effect.disableWrite c.fd ∨ e = Effect.removeSocket c.fd ∨ e = Effect.closeFd c.fd
    ∨ e = Effect.freeBuffers c.fd ∨ ∃ t2, e = Effect.stopTimer t2 := by
  obtain ⟨wr, rd⟩ := flags
  obtain ⟨Wst, Wtm, Wfd, _Wib, Weff⟩ := write_parts sR c
  rw [hst] at Wst
  have Wst2 : (telnet_client_write sR c).1.state = ClientState.linger
      ∨ (telnet_client_write sR c).1.state = ClientState.destroy := by
    rcases Wst with h | h | h
    · exact Or.inl h
    · exact Or.inl h
    · exact Or.inr h
  rw [htm] at Wtm
  cases wr <;> cases rd
  case false.false =>
    simp [telnet_client_action, hst, htm] at he
  case false.true =>
    have hna : c.state ≠ ClientState.active := by
      rw [hst]; exact fun hc => ClientState.noConfusion hc
    rcases read_not_active handle rR c hna with hre | hre
    · simp [telnet_client_action, hre, hst, htm] at he
    · simp [telnet_client_action, hre, hst, htm] at he
      rcases remove_mem_shape _ _ _ he with h | h | h | ⟨t2, h⟩
      · simp at h; exact Or.inr (Or.inl h)
      · simp at h; exact Or.inr (Or.inr (Or.inl h))
      · simp at h; exact Or.inr (Or.inr (Or.inr (Or.inl h)))
      · exact Or.inr (Or.inr (Or.inr (Or.inr ⟨t2, h⟩)))
  case true.false =>
    rcases Wst2 with hw | hw
    · simp [telnet_client_action, hw, Wtm] at he
      rcases Weff with w | w <;> rw [w] at he <;> simp at he
      exact Or.inl he
    · simp [telnet_client_action, hw, Wtm] at he
      rcases he with he | he
      · rcases Weff with w | w <;> rw [w] at he <;> simp at he
        exact Or.inl he
      · rcases remove_mem_shape _ _ _ he with h | h | h | ⟨t2, h⟩
        · rw [Wfd] at h; exact Or.inr (Or.inl h)
        · rw [Wfd] at h; exact Or.inr (Or.inr (Or.inl h))
        · rw [Wfd] at h; exact Or.inr (Or.inr (Or.inr (Or.inl h)))
        · exact Or.inr (Or.inr (Or.inr (Or.inr ⟨t2, h⟩)))
  case true.true =>
    have hna : (telnet_client_write sR c).1.state ≠ ClientState.active := by
      rcases Wst2 with hw | hw <;> rw [hw] <;> exact fun hc => ClientState.noConfusion hc
    rcases read_not_active handle rR (telnet_client_write sR c).1 hna with hre | hre
    · rcases Wst2 with hw | hw
      · simp [telnet_client_action, hre, hw, Wtm] at he
        rcases Weff with w | w <;> rw [w] at he <;> simp at he
        exact Or.inl he
      · simp [telnet_client_action, hre, hw, Wtm] at he
        rcases he with he | he
        · rcases Weff with w | w <;> rw [w] at he <;> simp at he
          exact Or.inl he
        · rcases remove_mem_shape _ _ _ he with h | h | h | ⟨t2, h⟩
          · rw [Wfd] at h; exact Or.inr (Or.inl h)
          · rw [Wfd] at h; exact Or.inr (Or.inr (Or.inl h))
          · rw [Wfd] at h; exact Or.inr (Or.inr (Or.inr (Or.inl h)))
          · exact Or.inr (Or.inr (Or.inr (Or.inr ⟨t2, h⟩)))
    · simp [telnet_client_action, hre, Wtm] at he
      rcases he with he | he
      · rcases Weff with w | w <;> rw [w] at he <;> simp at he
        exact Or.inl he
      · rcases remove_mem_shape _ _ _ he with h | h | h | ⟨t2, h⟩
        · simp [Wfd] at h; exact Or.inr (Or.inl h)
        · simp [Wfd] at h; exact Or.inr (Or.inr (Or.inl h))
        · simp [Wfd] at h; exact Or.inr (Or.inr (Or.inr (Or.inl h)))
        · exact Or.inr (Or.inr (Or.inr (Or.inr ⟨t2, h⟩)))

/-- C6: for a session in `linger`, the post-event check with no timer
recorded issues exactly the half-close followed by exactly one timer
start (recording the handle); and once a timer handle is recorded, no
readiness callback of any kind emits a further half-close or timer
start while the session lingers or is torn down. -/
theorem claim_C6 (handle : Dispatcher) (flags : EventFlags) (sR : SendResult) (rR : RecvResult)
    (t : Nat) (s : TelnetServer) (c : TelnetClient) (u : Nat)
    (hst : c.state = ClientState.linger) :
    (c.linger_timer = none →
      telnet_client_action handle ⟨false, false⟩ sR rR t s c
        = (s, some { c with linger_timer := some t },
           [Effect.shutdownWR c.fd, Effect.startTimer t]))
    ∧ (c.linger_timer = some u →
      Effect.shutdownWR c.fd ∉ (telnet_client_action handle flags sR rR t s c).2.2
      ∧ ∀ t2, Effect.startTimer t2 ∉ (telnet_client_action handle flags sR rR t s c).2.2) := by
  constructor
  · intro htm
    simp [telnet_client_action, hst, htm]
  · intro htm
    constructor
    · intro hmem
      rcases action_mem_shape handle flags sR rR t s c u hst htm _ hmem with h | h | h | h | ⟨t2, h⟩ <;>
        simp at h
    · intro t2 hmem
      rcases action_mem_shape handle flags sR rR t s c u hst htm _ hmem with h | h | h | h | ⟨t3, h⟩ <;>
        simp at h

/-- C6 witness: entering `linger` with no timer emits the half-close and
one timer start; a lingering session with a recorded timer emits
neither, even across a full read/write callback. -/
theorem claim_C6_witness :
    (lingerNoTimer.linger_timer = none →
      telnet_client_action keepAlive ⟨false, false⟩ (SendResult.sent 0) (RecvResult.err true) 3
          emptyServer lingerNoTimer
        = (emptyServer, some { lingerNoTimer with linger_timer := some 3 },
           [Effect.shutdownWR lingerNoTimer.fd, Effect.startTimer 3]))
    ∧ (lingerTimer7.linger_timer = some 7 →
      Effect.shutdownWR lingerTimer7.fd
        ∉ (telnet_client_action keepAlive ⟨true, true⟩ (SendResult.sent 1) (RecvResult.recv [97]) 3
            oneClientServer lingerTimer7).2.2
      ∧ ∀ t2, Effect.startTimer t2
        ∉ (telnet_client_action keepAlive ⟨true, true⟩ (SendResult.sent 1) (RecvResult.recv [97]) 3
            oneClientServer lingerTimer7).2.2) :=
  ⟨(claim_C6 keepAlive ⟨false, false⟩ (SendResult.sent 0) (RecvResult.err true) 3
      emptyServer lingerNoTimer 0 rfl).1,
   (claim_C6 keepAlive ⟨true, true⟩ (SendResult.sent 1) (RecvResult.recv [97]) 3
      oneClientServer lingerTimer7 7 rfl).2⟩

/-- C7: when the peer closes (zero-byte `recv`) while a session lingers
with its timer running, the callback removes and frees the session and
the release stops the linger timer, so its callback cannot later fire
against the freed session. -/
theorem claim_C7 (handle : Dispatcher) (flags : EventFlags) (sR : SendResult) (t : Nat)
    (s : TelnetServer) (c : TelnetClient) (u : Nat)
    (hrd : flags.rd = true) (hst : c.state = ClientState.linger)
    (htm : c.linger_timer = some u) (hcl : s.clients ≠ []) :
    (telnet_client_action handle flags sR (RecvResult.recv []) t s c).2.1 = none
    ∧ Effect.stopTimer u ∈ (telnet_client_action handle flags sR (RecvResult.recv []) t s c).2.2 := by
  obtain ⟨wr, rd⟩ := flags
  simp only at hrd
  subst hrd
  obtain ⟨Wst, Wtm, Wfd, _Wib, Weff⟩ := write_parts sR c
  rw [htm] at Wtm
  have hne : s.clients.isEmpty = false := by
    cases hc : s.clients
    · exact absurd hc hcl
    · rfl
  cases wr
  · constructor <;>
      simp [telnet_client_action, read_recv_nil, hne, telnet_client_remove,
        telnet_client_free, htm]
  · constructor <;>
      simp [telnet_client_action, read_recv_nil, hne, telnet_client_remove,
        telnet_client_free, Wtm]

/-- C7 witness: a lingering session with timer handle `7` whose peer
closes is removed, with the timer stop in the release trace. -/
theorem claim_C7_witness :
    (telnet_client_action keepAlive ⟨false, true⟩ (SendResult.sent 0) (RecvResult.recv []) 9
        oneClientServer lingerTimer7).2.1 = none
    ∧ Effect.stopTimer 7 ∈ (telnet_client_action keepAlive ⟨false, true⟩ (SendResult.sent 0)
        (RecvResult.recv []) 9 oneClientServer lingerTimer7).2.2 :=
  claim_C7 keepAlive ⟨false, true⟩ (SendResult.sent 0) 9 oneClientServer lingerTimer7 7
    rfl rfl rfl (by decide)
